import Mathlib

set_option maxHeartbeats 1000000

namespace SeoQc

/-- Characters treated as whitespace by Python: the set stripped by `str.strip()` and
matched by the regex whitespace class in unicode mode. -/
def pyIsSpace (c : Char) : Bool :=
  c = ' ' || c = '\t' || c = '\n' || c = '\r' || c = Char.ofNat 11 || c = Char.ofNat 12 ||
  c = Char.ofNat 28 || c = Char.ofNat 29 || c = Char.ofNat 30 || c = Char.ofNat 31 ||
  c = Char.ofNat 133 || c = Char.ofNat 160 || c = Char.ofNat 0x1680 ||
  (0x2000 ≤ c.toNat && c.toNat ≤ 0x200a) || c = Char.ofNat 0x2028 || c = Char.ofNat 0x2029 ||
  c = Char.ofNat 0x202f || c = Char.ofNat 0x205f || c = Char.ofNat 0x3000

/-- Python `str.strip()`: remove leading and trailing whitespace. -/
def pyStrip (l : List Char) : List Char :=
  ((l.dropWhile pyIsSpace).reverse.dropWhile pyIsSpace).reverse

/-- Python `str.split("\n")`. -/
def splitNl : List Char → List (List Char)
  | [] => [[]]
  | c :: rest =>
    if c = '\n' then [] :: splitNl rest
    else
      match splitNl rest with
      | line :: more => (c :: line) :: more
      | [] => [[c]]

/-- Python `sep.join(strings)`. -/
def joinSep (sep : String) : List String → String
  | [] => ""
  | [x] => x
  | x :: y :: xs => x ++ sep ++ joinSep sep (y :: xs)

/-- Python `"\n".join(lines)` on character lists. -/
def joinNl : List (List Char) → List Char
  | [] => []
  | [l] => l
  | l :: m :: ls => l ++ '\n' :: joinNl (m :: ls)

/-- Python substring test `pat in l` (used for `in` on strings). -/
def containsB (pat : List Char) : List Char → Bool
  | [] => pat.isPrefixOf []
  | c :: rest => pat.isPrefixOf (c :: rest) || containsB pat rest

/-- Python `str.find(pat, start)` modelled on the tail `l` of the string starting at
index `base`: returns the absolute index of the first occurrence of `pat`, if any. -/
def findSub (pat : List Char) : List Char → Nat → Option Nat
  | [], i => if pat.isPrefixOf [] then some i else none
  | c :: rest, i => if pat.isPrefixOf (c :: rest) then some i else findSub pat rest (i + 1)

/-- Python `str.count(pat)`: non-overlapping occurrence count, scanning left to right.
At a match the scan resumes after the matched text; all call sites use a non-empty
`pat`, so `rest.drop (pat.length - 1)` is the text just after the match. -/
def countSub (pat : List Char) (l : List Char) : Nat :=
  match l with
  | [] => 0
  | c :: rest =>
    if pat.isPrefixOf (c :: rest) ∧ pat ≠ [] then 1 + countSub pat (rest.drop (pat.length - 1))
    else countSub pat rest
termination_by l.length
decreasing_by
  · simp only [List.length_drop, List.length_cons]
    omega
  · simp only [List.length_cons]
    omega

/-- Index of the first occurrence of character `ch`. -/
def findCharIdx (ch : Char) : List Char → Option Nat
  | [] => none
  | c :: rest => if c = ch then some 0 else (findCharIdx ch rest).map (· + 1)

/-- State-machine form of the tag-removal substitution in `strip_html_tags`: an opening
angle bracket buffers following characters; a closing bracket after at least one buffered
character drops the whole tag, a closing bracket right after the opening one matches
nothing and both characters are kept, and a buffer still open at the end of the text is
flushed unchanged (no match without a closing bracket). -/
def stripTagsAux : List Char → Option (List Char) → List Char
  | [], none => []
  | [], some buf => '<' :: buf.reverse
  | c :: rest, none =>
    if c = '<' then stripTagsAux rest (some [])
    else c :: stripTagsAux rest none
  | c :: rest, some buf =>
    if c = '>' then
      if buf = [] then '<' :: '>' :: stripTagsAux rest none
      else stripTagsAux rest none
    else stripTagsAux rest (some (c :: buf))

/-- Python `strip_html_tags`: remove every maximal tag-shaped span. -/
def strip_html_tags (l : List Char) : List Char := stripTagsAux l none

/-- The link-collapsing substitution in `count_japanese_chars`: a bracketed span with no
closing bracket inside, immediately followed by a parenthesised span with no closing
parenthesis inside, is replaced by the bracketed text; on failure the scan moves one
character forward, and replacement text is never rescanned. -/
def collapseLinks (l : List Char) : List Char :=
  match l with
  | [] => []
  | c :: rest =>
    if c = '[' then
      match findCharIdx ']' rest with
      | some j =>
        if ['('].isPrefixOf (rest.drop (j + 1)) then
          match findCharIdx ')' (rest.drop (j + 2)) with
          | some k => rest.take j ++ collapseLinks ((rest.drop (j + 2)).drop (k + 1))
          | none => c :: collapseLinks rest
        else c :: collapseLinks rest
      | none => c :: collapseLinks rest
    else c :: collapseLinks rest
termination_by l.length
decreasing_by
  all_goals simp only [List.length_drop, List.length_cons]; omega

/-- Markdown punctuation characters removed by `count_japanese_chars`. -/
def isMdPunct (c : Char) : Bool :=
  c = '#' || c = '*' || c = '_' || c = Char.ofNat 96 || c = '|' || c = '>' || c = '-'

/-- Python `count_japanese_chars`: strip tags, collapse markdown links, remove markdown
punctuation, remove whitespace, and count the remaining characters. -/
def count_japanese_chars (s : String) : Nat :=
  let t1 := strip_html_tags s.data
  let t2 := collapseLinks t1
  let t3 := t2.filter (fun c => !isMdPunct c)
  let t4 := t3.filter (fun c => !pyIsSpace c)
  t4.length

/-- Test used by `find_h2_sections`: the raw line opens a level-2 heading. -/
def isH2Line (l : List Char) : Bool := "## ".data.isPrefixOf l

/-- Loop of `find_h2_sections`: `cur` is the open section (heading and its lines so far). -/
def h2Aux : List (List Char) → Option (List Char × List (List Char)) →
    List (List Char × List Char)
  | [], none => []
  | [], some (h, ls) => [(h, joinNl ls)]
  | line :: rest, cur =>
    if isH2Line line then
      match cur with
      | none => h2Aux rest (some (line, []))
      | some (h, ls) => (h, joinNl ls) :: h2Aux rest (some (line, []))
    else
      match cur with
      | none => h2Aux rest none
      | some (h, ls) => h2Aux rest (some (h, ls ++ [line]))

/-- Python `find_h2_sections`: split the body into lines and collect, for every line
beginning a level-2 heading, the heading line and the joined lines up to the next one. -/
def find_h2_sections (body : String) : List (List Char × List Char) :=
  h2Aux (splitNl body.data) none

/-- Metadata values as the spec's data model admits them: strings (dates are strings)
and sequences of strings. -/
inductive Yval where
  | ystr (s : String)
  | ylist (l : List String)
deriving DecidableEq, Repr

/-- Outcome of the YAML collaborator on a header string: a key/value mapping, a
non-mapping document, or a parse error. The two last cases both degrade to an empty
mapping in `parse_frontmatter`. -/
inductive YLoadResult where
  | ydict (d : List (String × Yval))
  | yother
  | yerror
deriving DecidableEq, Repr

/-- Python `parse_frontmatter`, parametrised by the YAML loader collaborator: when the
content starts with the three characters of the delimiter and that delimiter occurs
again as a substring from index 3 on, the stripped text between index 3 and that
occurrence is handed to the loader (errors and non-mappings degrade to the empty
mapping) and the body is the stripped text after the occurrence; otherwise the mapping
is empty and the body is the whole content. -/
def parse_frontmatter (yload : String → YLoadResult) (content : String) :
    List (String × Yval) × String :=
  if "---".data.isPrefixOf content.data then
    match findSub "---".data (content.data.drop 3) 3 with
    | some e =>
      let fmStr := String.mk (pyStrip ((content.data.drop 3).take (e - 3)))
      let body := String.mk (pyStrip (content.data.drop (e + 3)))
      let fm := match yload fmStr with
        | .ydict d => d
        | _ => []
      (fm, body)
    | none => ([], content)
  else ([], content)

/-- Required frontmatter field names, in source order. -/
def REQUIRED_FIELDS : List String :=
  ["title", "description", "publishedAt", "category", "area", "keyword", "keywords"]

/-- Python `fm[k]` access on the metadata mapping. -/
def fmLookup (fm : List (String × Yval)) (k : String) : Option Yval :=
  (fm.find? (fun p => p.1 = k)).map Prod.snd

/-- Python `check_001_frontmatter_fields`. -/
def check_001_frontmatter_fields (fm : List (String × Yval)) : Bool × String :=
  let missing := REQUIRED_FIELDS.filter (fun f => (fmLookup fm f).isNone)
  if missing ≠ [] then (false, "missing: " ++ joinSep ", " missing)
  else (true, "")

/-- Python `str(value)` on a metadata value. -/
def pyStr : Yval → String
  | .ystr s => s
  | .ylist l => "[" ++ joinSep ", " (l.map (fun s => "'" ++ s ++ "'")) ++ "]"

/-- Python `DATE_PATTERN.match(val)`: four digits, dash, two digits, dash, two digits,
anchored at both ends (the end anchor also accepts one trailing newline). -/
def dateMatch (l : List Char) : Bool :=
  match l with
  | a :: b :: c :: d :: '-' :: e :: f :: '-' :: g :: h :: rest =>
    a.isDigit && b.isDigit && c.isDigit && d.isDigit && e.isDigit && f.isDigit &&
    g.isDigit && h.isDigit && (rest = [] || rest = ['\n'])
  | _ => false

/-- Field test used by `check_002_frontmatter_types` on present fields: not a string,
or empty after stripping. Absent fields are never flagged. -/
def badStr (v : Option Yval) : Bool :=
  match v with
  | some (.ystr s) => pyStrip s.data = []
  | some (.ylist _) => true
  | none => false

/-- Python `check_002_frontmatter_types`. Each present field is validated; the no-op
category branch of the source is omitted. -/
def check_002_frontmatter_types (fm : List (String × Yval)) : Bool × String :=
  let i1 := if badStr (fmLookup fm "title") then ["title empty or not string"] else []
  let i2 := if badStr (fmLookup fm "description") then ["description empty or not string"] else []
  let i3 := match fmLookup fm "publishedAt" with
    | some v =>
      let val := pyStr v
      if dateMatch val.data then [] else ["publishedAt format: " ++ val]
    | none => []
  let i4 := if badStr (fmLookup fm "area") then ["area empty or not string"] else []
  let i5 := if badStr (fmLookup fm "keyword") then ["keyword empty or not string"] else []
  let i6 := match fmLookup fm "keywords" with
    | some (.ylist l) => if l.length < 1 then ["keywords not array or empty"] else []
    | some (.ystr _) => ["keywords not array or empty"]
    | none => []
  let issues := i1 ++ i2 ++ i3 ++ i4 ++ i5 ++ i6
  if issues ≠ [] then (false, joinSep "; " issues) else (true, "")

/-- Python source name: check 003 pr notation. Look for a disclosure token in the
first 50 lines. -/
def check_003_pr_notice (body : String) : Bool × String :=
  let text := joinNl ((splitNl body.data).take 50)
  if containsB "アフィリエイト広告".data text || containsB "PR".data text then (true, "")
  else (false, "PR notation not found in first 50 lines")

/-- The CTA container opening tag counted by `check_004_cta_count`. -/
def CTA_DIV : String := "<div class=\"cta-box\">"

/-- Length of a match of the CTA comment marker at the head of `l`, if any: the comment
opener, then any run of whitespace, then the CTA tag. -/
def ctaMatchLen (l : List Char) : Option Nat :=
  if "<!--".data.isPrefixOf l then
    let k := ((l.drop 4).takeWhile pyIsSpace).length
    if "CTA:".data.isPrefixOf (l.drop (4 + k)) then some (8 + k) else none
  else none

/-- Count of CTA comment markers, as `re.findall` counts them: leftmost matches,
non-overlapping, scan resuming after each match. A match length is at least 8, so
`rest.drop (n - 1)` is the text just after the match. -/
def countCtaComments (l : List Char) : Nat :=
  match l with
  | [] => 0
  | c :: rest =>
    match ctaMatchLen (c :: rest) with
    | some n => 1 + countCtaComments (rest.drop (n - 1))
    | none => countCtaComments rest
termination_by l.length
decreasing_by
  all_goals simp only [List.length_drop, List.length_cons]; omega

/-- Python `check_004_cta_count`. -/
def check_004_cta_count (body : String) : Bool × String :=
  let count := countSub CTA_DIV.data body.data
  let cta_comments := countCtaComments body.data
  let total := count + cta_comments
  if total = 3 then (true, "")
  else (false, "CTA count: " ++ toString total ++ " (div: " ++ toString count ++
    ", comment: " ++ toString cta_comments ++ ")")

/-- Length of the minimal span matching the non-greedy block tail in
`check_005_cta_structure`: the first closing tag that is followed, after a maximal run
of whitespace, by a second closing tag, ending at the end of that second tag. -/
def cta5End (l : List Char) : Option Nat :=
  match l with
  | [] => none
  | _ :: rest =>
    if "</div>".data.isPrefixOf l then
      let k := ((l.drop 6).takeWhile pyIsSpace).length
      if "</div>".data.isPrefixOf (l.drop (6 + k)) then some (12 + k)
      else
        match cta5End rest with
        | some n => some (n + 1)
        | none => none
    else
      match cta5End rest with
      | some n => some (n + 1)
      | none => none

/-- The `re.findall` of CTA container blocks in `check_005_cta_structure`: at each
occurrence of the opening tag (21 characters), take the non-greedy span up to the
double closing tag; on success the scan resumes after the block. -/
def findCtaBlocks (l : List Char) : List (List Char) :=
  match l with
  | [] => []
  | c :: rest =>
    if CTA_DIV.data.isPrefixOf (c :: rest) then
      match cta5End ((c :: rest).drop 21) with
      | some n => (c :: rest).take (21 + n) :: findCtaBlocks (rest.drop (20 + n))
      | none => findCtaBlocks rest
    else findCtaBlocks rest
termination_by l.length
decreasing_by
  all_goals simp only [List.length_drop, List.length_cons]; omega

/-- Issue list of `check_005_cta_structure`, one pass over the matched blocks. -/
def cta5Issues : List (List Char) → Nat → List String
  | [], _ => []
  | b :: bs, idx =>
    let i1 := if !(containsB "cta-badge".data b || containsB "cta-button".data b) then
        ["CTA#" ++ toString (idx + 1) ++ ": missing badge or button"] else []
    let i2 := if !(containsB "nofollow".data b && containsB "sponsored".data b) then
        ["CTA#" ++ toString (idx + 1) ++ ": missing nofollow/sponsored"] else []
    i1 ++ i2 ++ cta5Issues bs (idx + 1)

/-- Python `check_005_cta_structure`. -/
def check_005_cta_structure (body : String) : Bool × String :=
  let cta_blocks := findCtaBlocks body.data
  let cta_comments := countCtaComments body.data
  if cta_blocks = [] ∧ cta_comments = 0 then (false, "no CTA found")
  else
    let issues := cta5Issues cta_blocks 0
    if issues ≠ [] then (false, joinSep "; " issues) else (true, "")

/-- Line test for the multiline heading pattern of `check_006_h2_count`: two hashes,
a space, and at least one further character on the line. -/
def isH2Regex (l : List Char) : Bool := "## ".data.isPrefixOf l && decide (4 ≤ l.length)

/-- Python `check_006_h2_count`. -/
def check_006_h2_count (body : String) : Bool × String :=
  let count := ((splitNl body.data).filter isH2Regex).length
  if count = 5 then (true, "") else (false, "H2 count: " ++ toString count)

/-- Line test for the question pattern of `check_007_faq_questions`: three or four
hashes, a space, and at least one further character. -/
def matchQ (l : List Char) : Bool :=
  ("### ".data.isPrefixOf l && decide (5 ≤ l.length)) ||
  ("#### ".data.isPrefixOf l && decide (6 ≤ l.length))

/-- Count of question headings in a section content. -/
def countQuestions (content : List Char) : Nat := ((splitNl content).filter matchQ).length

/-- Heading test of the FAQ search loop in `check_007_faq_questions`. -/
def hasFaqHeading (s : List Char × List Char) : Bool :=
  containsB "FAQ".data s.1 || containsB "よくある質問".data s.1

/-- Python `check_007_faq_questions`. -/
def check_007_faq_questions (body : String) : Bool × String :=
  let sections := find_h2_sections body
  let faq1 := match sections.find? hasFaqHeading with
    | some s => s.2
    | none => []
  let faq_content := if faq1 = [] ∧ 4 ≤ sections.length then
      ((sections.get? 3).map Prod.snd).getD faq1
    else faq1
  if faq_content = [] then (false, "FAQ section not found")
  else
    let count := countQuestions faq_content
    if 5 ≤ count then (true, "") else (false, "FAQ questions: " ++ toString count)

/-- Python `check_008_char_count`. -/
def check_008_char_count (body : String) : Bool × String :=
  let char_count := count_japanese_chars body
  if 2500 ≤ char_count then (true, "")
  else (false, "chars: " ++ toString char_count)

/-- Forbidden words of `check_009_forbidden_words`, in source order. -/
def FORBIDDEN_WORDS : List String :=
  ["必ず", "絶対", "間違いなく", "最高", "No.1", "ナンバーワン", "一番"]

/-- The `re.findall` over the forbidden-word alternation: leftmost matches, first
alternative wins, scan resuming after each match. Every word is non-empty, so
`rest.drop (w.data.length - 1)` is the text just after the match. -/
def findForbidden (l : List Char) : List String :=
  match l with
  | [] => []
  | c :: rest =>
    match FORBIDDEN_WORDS.find? (fun w => w.data.isPrefixOf (c :: rest)) with
    | some w => w :: findForbidden (rest.drop (w.data.length - 1))
    | none => findForbidden rest
termination_by l.length
decreasing_by
  all_goals simp only [List.length_drop, List.length_cons]; omega

/-- Python `check_009_forbidden_words`: the detail lists each matched word once, in
first-occurrence order, with its occurrence count. -/
def check_009_forbidden_words (body : String) : Bool × List String :=
  let ms := findForbidden body.data
  if ms = [] then (true, [])
  else
    let details := ms.eraseDups.map (fun w => w ++ "(" ++ toString (ms.count w) ++ ")")
    (false, details)

/-- Table-line test shared by the table rules: the stripped line starts with a pipe. -/
def isTableLine (l : List Char) : Bool :=
  match pyStrip l with
  | '|' :: _ => true
  | _ => false

/-- Python `check_010_cost_table`. -/
def check_010_cost_table (body : String) : Bool × String :=
  let sections := find_h2_sections body
  match sections with
  | [] => (false, "no H2 sections")
  | first :: _ =>
    let table_lines := (splitNl first.2).filter isTableLine
    if 4 ≤ table_lines.length then (true, "")
    else (false, "table lines in H2-1: " ++ toString table_lines.length)

/-- Separator test of `check_011_markdown_table` on the line after a table
header: the stripped line starts with a pipe and contains two consecutive dashes. -/
def sepLineOk (nl : List Char) : Bool :=
  isTableLine nl && containsB "--".data (pyStrip nl)

/-- Loop of `check_011_markdown_table`, carrying the line index, the in-table
flag, the separator flag and the issue list exactly as the source does. -/
def tableLoop : List (List Char) → Nat → Bool → Bool → List String → List String
  | [], _, _, _, issues => issues
  | l :: rest, i, in_table, has_separator, issues =>
    if isTableLine l then
      if !in_table then
        match rest with
        | [] => tableLoop rest (i + 1) true false issues
        | next :: _ =>
          if sepLineOk next then tableLoop rest (i + 1) true true issues
          else tableLoop rest (i + 1) true false
            (issues ++ ["line " ++ toString (i + 1) ++ ": table header not followed by separator"])
      else tableLoop rest (i + 1) true has_separator issues
    else
      if in_table && !has_separator then
        tableLoop rest (i + 1) false has_separator
          (issues ++ ["table ending at line " ++ toString i ++ ": no separator row found"])
      else tableLoop rest (i + 1) false has_separator issues

/-- Python source name: check 011 markdown table syntax. -/
def check_011_markdown_table (body : String) : Bool × String :=
  let issues := tableLoop (splitNl body.data) 0 false false []
  if issues ≠ [] then (false, joinSep "; " (issues.take 3))
  else (true, "")

/-- The `re.findall` of the style pattern in `check_012_writing_style`: the three
alternatives tried in source order at each position, leftmost non-overlapping matches,
the scan resuming after each match. The bare ending alternative needs a preceding
character different from the exempting one. -/
def jotaiFind (l : List Char) : List String :=
  match l with
  | [] => []
  | c :: rest =>
    if "である。".data.isPrefixOf (c :: rest) then "である。" :: jotaiFind (rest.drop 3)
    else if "であろう。".data.isPrefixOf (c :: rest) then "であろう。" :: jotaiFind (rest.drop 4)
    else if c ≠ 'い' ∧ "だ。".data.isPrefixOf rest then
      String.mk [c, 'だ', '。'] :: jotaiFind (rest.drop 2)
    else jotaiFind rest
termination_by l.length
decreasing_by
  all_goals simp only [List.length_drop, List.length_cons]; omega

/-- Python `check_012_writing_style`. -/
def check_012_writing_style (body : String) : Bool × String :=
  let clean := strip_html_tags body.data
  let ms := jotaiFind clean
  if ms = [] then (true, "")
  else (false, "常体 found: [" ++
    joinSep ", " ((ms.take 5).map (fun w => "'" ++ w ++ "'")) ++ "]")

/-- Python `check_013_area_frequency`. A present, non-empty sequence value makes the
source raise a type error in the substring count, so the result is an exception. -/
def check_013_area_frequency (fm : List (String × Yval)) (body : String) :
    Except String (Bool × String) :=
  match fmLookup fm "area" with
  | none => .ok (false, "no area in frontmatter")
  | some (.ystr s) =>
    if s = "" then .ok (false, "no area in frontmatter")
    else
      let count := countSub s.data body.data
      if 3 ≤ count then .ok (true, "")
      else .ok (false, "area '" ++ s ++ "' count: " ++ toString count)
  | some (.ylist l) =>
    if l = [] then .ok (false, "no area in frontmatter")
    else .error "TypeError: must be str"

/-- Python `check_014_image_exists`, with the filesystem as a collaborator-supplied
existence predicate. -/
def check_014_image_exists (pathExists : String → Bool) (slug : String)
    (site_dir : String) : Bool × String :=
  let images_dir := site_dir ++ "/public/images/articles"
  let ogp_path := images_dir ++ "/" ++ slug ++ "-ogp.png"
  let thumb_path := images_dir ++ "/" ++ slug ++ "-thumb.png"
  let missing := (if !pathExists ogp_path then ["ogp"] else []) ++
    (if !pathExists thumb_path then ["thumb"] else [])
  if missing = [] then (true, "")
  else (false, "missing: " ++ joinSep ", " missing)

/-- Diagnostic detail of one rule verdict: a string, or a list of strings as rule 009
produces on failure. -/
inductive Detail where
  | dstr (s : String)
  | dlist (l : List String)
deriving DecidableEq, Repr

/-- One rule verdict as `run_checks` stores it. -/
structure Verdict where
  pass : Bool
  detail : Detail
deriving DecidableEq, Repr

/-- Python `run_checks`, parametrised by the filesystem predicate and YAML loader
collaborators, with the article slug passed directly (the source derives it from the
file name). The only rule implementation that can raise on our metadata model is rule
013, so the whole evaluation is an exception in exactly that case. -/
def run_checks (pathExists : String → Bool) (yload : String → YLoadResult)
    (site_dir slug : String) (content : String) :
    Except String (List (String × Verdict)) :=
  let pf := parse_frontmatter yload content
  let fm := pf.1
  let body := pf.2
  let r1 := check_001_frontmatter_fields fm
  let r2 := check_002_frontmatter_types fm
  let r3 := check_003_pr_notice body
  let r4 := check_004_cta_count body
  let r5 := check_005_cta_structure body
  let r6 := check_006_h2_count body
  let r7 := check_007_faq_questions body
  let r8 := check_008_char_count body
  let r9 := check_009_forbidden_words body
  let r10 := check_010_cost_table body
  let r11 := check_011_markdown_table body
  let r12 := check_012_writing_style body
  match check_013_area_frequency fm body with
  | .error e => .error e
  | .ok r13 =>
    let r14 := check_014_image_exists pathExists slug site_dir
    .ok [("check_001", ⟨r1.1, .dstr r1.2⟩),
         ("check_002", ⟨r2.1, .dstr r2.2⟩),
         ("check_003", ⟨r3.1, .dstr r3.2⟩),
         ("check_004", ⟨r4.1, .dstr r4.2⟩),
         ("check_005", ⟨r5.1, .dstr r5.2⟩),
         ("check_006", ⟨r6.1, .dstr r6.2⟩),
         ("check_007", ⟨r7.1, .dstr r7.2⟩),
         ("check_008", ⟨r8.1, .dstr r8.2⟩),
         ("check_009", ⟨r9.1, if r9.1 then .dstr "" else .dlist r9.2⟩),
         ("check_010", ⟨r10.1, .dstr r10.2⟩),
         ("check_011", ⟨r11.1, .dstr r11.2⟩),
         ("check_012", ⟨r12.1, .dstr r12.2⟩),
         ("check_013", ⟨r13.1, .dstr r13.2⟩),
         ("check_014", ⟨r14.1, .dstr r14.2⟩)]

/-- Per-document outcome as the collection driver records it: a full report, or the
error marker of a document whose evaluation raised. -/
inductive DocRes where
  | checks (cs : List (String × Verdict))
  | errMark (msg : String)
deriving DecidableEq, Repr

/-- The fourteen rule identifiers, as `aggregate_results` enumerates them. -/
def checkIds : List String :=
  ["check_001", "check_002", "check_003", "check_004", "check_005", "check_006",
   "check_007", "check_008", "check_009", "check_010", "check_011", "check_012",
   "check_013", "check_014"]

/-- Python `cid in checks` and `checks[cid]` on one report. -/
def repLookup (cs : List (String × Verdict)) (cid : String) : Option Verdict :=
  (cs.find? (fun p => p.1 = cid)).map Prod.snd

/-- Inner loop of `aggregate_results` for one rule identifier: pass count, fail count,
and the failing document names in input order. -/
def tally (cid : String) : List (String × DocRes) → Nat × Nat × List String
  | [] => (0, 0, [])
  | (name, res) :: rest =>
    let t := tally cid rest
    match res with
    | .errMark _ => t
    | .checks cs =>
      match repLookup cs cid with
      | none => t
      | some v => if v.pass then (t.1 + 1, t.2.1, t.2.2) else (t.1, t.2.1 + 1, name :: t.2.2)

/-- Aggregated counters for one rule identifier. -/
structure RuleSummary where
  pass : Nat
  fail : Nat
  passRate : String
  failFiles : List String
  failFilesTotal : Nat
deriving DecidableEq, Repr

/-- Whole-percent pass rate: the float format of the source rounds the quotient to the
nearest integer, ties to even, modelled here on the exact rational. -/
def rateNat (p t : Nat) : Nat :=
  let n := 100 * p
  let q := n / t
  let r := n % t
  if 2 * r < t then q
  else if t < 2 * r then q + 1
  else if q % 2 = 0 then q else q + 1

/-- Pass-rate string of `aggregate_results`. -/
def rateStr (p t : Nat) : String :=
  if t = 0 then "N/A" else toString (rateNat p t) ++ "%"

/-- Summary of one rule identifier over a document collection, as `aggregate_results`
builds it: counts, rate, the first 20 failing names, and the true failing total. -/
def ruleSummary (cid : String) (docs : List (String × DocRes)) : RuleSummary :=
  let t := tally cid docs
  ⟨t.1, t.2.1, rateStr t.1 (t.1 + t.2.1), t.2.2.take 20, t.2.2.length⟩

/-- Python `aggregate_results`: one summary per rule identifier, in fixed order. -/
def aggregate_results (docs : List (String × DocRes)) : List (String × RuleSummary) :=
  checkIds.map (fun cid => (cid, ruleSummary cid docs))

/-- Modelled from the spec: the source has no merge operation on partial summaries, but
the specification asserts that partial aggregates "may be merged in any order". This
merge adds the counts, recomputes the rate from the merged counts, concatenates the
failing-name samples capped at 20, and adds the failing totals. -/
def mergeRuleSummary (a b : RuleSummary) : RuleSummary :=
  ⟨a.pass + b.pass, a.fail + b.fail,
   rateStr (a.pass + b.pass) (a.pass + b.pass + (a.fail + b.fail)),
   (a.failFiles ++ b.failFiles).take 20,
   a.failFilesTotal + b.failFilesTotal⟩

/-- Modelled from the spec: merge of two collection summaries, rule by rule. -/
def mergeSummaries (s t : List (String × RuleSummary)) : List (String × RuleSummary) :=
  List.zipWith (fun a b => (a.1, mergeRuleSummary a.2 b.2)) s t

/-- Order-insensitive view of a collection summary: everything except the bounded
failing-name sample, whose order follows the input order. -/
def countsView (s : List (String × RuleSummary)) :
    List (String × Nat × Nat × Nat × String) :=
  s.map (fun p => (p.1, p.2.pass, p.2.fail, p.2.failFilesTotal, p.2.passRate))

/-- Statement of claim C5 as written: a header block is recognised exactly when the
text begins with a line consisting of the delimiter and a later delimiter line exists;
the lines strictly between them form the header text, and the body is the text after
the closing delimiter line, trimmed; otherwise the metadata is empty and the body is
the whole text. -/
def claimExtract (yload : String → YLoadResult) (content : String) :
    List (String × Yval) × String :=
  match splitNl content.data with
  | [] => ([], content)
  | first :: rest =>
    if first = "---".data then
      match rest.findIdx? (fun l => l = "---".data) with
      | some j =>
        let fmStr := String.mk (pyStrip (joinNl (rest.take j)))
        let body := String.mk (pyStrip (joinNl (rest.drop (j + 1))))
        (match yload fmStr with
          | .ydict d => d
          | _ => [], body)
      | none => ([], content)
    else ([], content)

/-- Content that rule 007 actually evaluates, as amended: the first FAQ-headed
section's content when that content is non-empty; otherwise, when there are at least 4
sections, the 4th section's content; otherwise the empty content. -/
def faqChosenContent (body : String) : List Char :=
  let sections := find_h2_sections body
  let faq1 := match sections.find? hasFaqHeading with
    | some s => s.2
    | none => []
  if faq1 = [] ∧ 4 ≤ sections.length then ((sections.get? 3).map Prod.snd).getD faq1
  else faq1

/-- Statement of claim C4 as written: the section evaluated by rule 007 is the first
one whose heading contains an FAQ marker whenever such a section exists; only when no
heading matches is the 4th level-2 section used; the rule passes exactly when the
chosen section's content contains at least 5 level-3 or level-4 headings. -/
def claimFaqPass (body : String) : Bool :=
  let sections := find_h2_sections body
  match sections.find? hasFaqHeading with
  | some s => decide (5 ≤ countQuestions s.2)
  | none =>
    if 4 ≤ sections.length then
      decide (5 ≤ countQuestions (((sections.get? 3).map Prod.snd).getD []))
    else false

/-- Run-structure predicate for C6 as amended: scanning the lines with a flag telling
whether the previous line was a table line, every contiguous run of table lines either
starts at the very last line of the body, or its first line is immediately followed by
a table line containing two consecutive dashes. -/
def goodRuns : List (List Char) → Bool → Bool
  | [], _ => true
  | l :: rest, prevT =>
    if isTableLine l then
      if prevT then goodRuns rest true
      else
        match rest with
        | [] => true
        | next :: _ => sepLineOk next && goodRuns rest true
    else goodRuns rest false

/-- Run-structure predicate of claim C6 as written: every contiguous run of table
lines must be followed, right after its first line, by a table line containing two
consecutive dashes — also when the run starts at the last line of the body. -/
def claimGoodRuns : List (List Char) → Bool → Bool
  | [], _ => true
  | l :: rest, prevT =>
    if isTableLine l then
      if prevT then claimGoodRuns rest true
      else
        match rest with
        | [] => false
        | next :: _ => sepLineOk next && claimGoodRuns rest true
    else claimGoodRuns rest false

/-- One-position match test of the style pattern of rule 012: one of the three
alternatives matches at the head of `l` — the two full literary endings, or a bare
ending preceded by a character different from the exempting one. -/
def jotaiAt (l : List Char) : Bool :=
  "である。".data.isPrefixOf l || "であろう。".data.isPrefixOf l ||
  (match l with
   | [] => false
   | c :: rest => (c != 'い') && "だ。".data.isPrefixOf rest)

/-- Bare-ending occurrence test of claim C7 as written: an occurrence of the bare
ending that is not immediately preceded by the exempting character — including an
occurrence at the very start of the text. -/
def claimDaTail (prev : Char) : List Char → Bool
  | [] => false
  | c :: rest => ((prev != 'い') && "だ。".data.isPrefixOf (c :: rest)) || claimDaTail c rest

/-- Occurrence test of claim C7 as written over the whole text. -/
def claimJotaiOcc (l : List Char) : Bool :=
  containsB "である。".data l || containsB "であろう。".data l ||
  (match l with
   | [] => false
   | c :: rest => "だ。".data.isPrefixOf (c :: rest) || claimDaTail c rest)

/-- Pass test of one document for one rule identifier. -/
def passP (cid : String) (p : String × DocRes) : Bool :=
  match p.2 with
  | .errMark _ => false
  | .checks cs =>
    match repLookup cs cid with
    | some v => v.pass
    | none => false

/-- Fail test of one document for one rule identifier. -/
def failP (cid : String) (p : String × DocRes) : Bool :=
  match p.2 with
  | .errMark _ => false
  | .checks cs =>
    match repLookup cs cid with
    | some v => !v.pass
    | none => false

/-- Failing report shared by the C2 concrete instances: rule 001 fails. -/
def repFail : DocRes := .checks [("check_001", ⟨false, .dstr ""⟩)]

lemma isPrefixOf_iff_exists : ∀ (p l : List Char), p.isPrefixOf l = true ↔ ∃ t, l = p ++ t
  | [], l => by simp [List.isPrefixOf]
  | a :: as, [] => by simp [List.isPrefixOf]
  | a :: as, b :: bs => by
    simp only [List.isPrefixOf, Bool.and_eq_true, beq_iff_eq]
    constructor
    · rintro ⟨rfl, h⟩
      obtain ⟨t, rfl⟩ := (isPrefixOf_iff_exists as bs).mp h
      exact ⟨t, rfl⟩
    · rintro ⟨t, ht⟩
      cases ht
      exact ⟨rfl, (isPrefixOf_iff_exists as (as ++ t)).mpr ⟨t, rfl⟩⟩

lemma containsB_iff_exists (pat : List Char) :
    ∀ l, containsB pat l = true ↔ ∃ s t, l = s ++ pat ++ t
  | [] => by
    simp only [containsB, isPrefixOf_iff_exists]
    constructor
    · rintro ⟨t, ht⟩
      exact ⟨[], t, ht⟩
    · rintro ⟨s, t, ht⟩
      cases s with
      | nil => exact ⟨t, ht⟩
      | cons a s => simp at ht
  | c :: rest => by
    simp only [containsB, Bool.or_eq_true, isPrefixOf_iff_exists,
      containsB_iff_exists pat rest]
    constructor
    · rintro (⟨t, ht⟩ | ⟨s, t, ht⟩)
      · exact ⟨[], t, by simpa using ht⟩
      · exact ⟨c :: s, t, by simp [ht]⟩
    · rintro ⟨s, t, ht⟩
      cases s with
      | nil => exact Or.inl ⟨t, by simpa using ht⟩
      | cons a s =>
        simp only [List.cons_append, List.cons.injEq] at ht
        exact Or.inr ⟨s, t, ht.2⟩

lemma strip_html_tags_id (l : List Char) (h : '<' ∉ l) : strip_html_tags l = l := by
  unfold strip_html_tags
  induction l with
  | nil => rfl
  | cons c rest ih =>
    have hc : c ≠ '<' := fun e => h (e ▸ List.mem_cons_self c rest)
    simp only [stripTagsAux, if_neg hc]
    exact congrArg (c :: ·) (ih (fun m => h (List.mem_cons_of_mem c m)))

lemma collapseLinks_id (l : List Char) (h : '[' ∉ l) : collapseLinks l = l := by
  induction l with
  | nil => simp [collapseLinks]
  | cons c rest ih =>
    have hc : c ≠ '[' := fun e => h (e ▸ List.mem_cons_self c rest)
    rw [collapseLinks]
    simp only [if_neg hc]
    exact congrArg (c :: ·) (ih (fun m => h (List.mem_cons_of_mem c m)))

lemma count_japanese_chars_replicate (n : Nat) :
    count_japanese_chars (String.mk (List.replicate n 'あ')) = n := by
  have hmem : ∀ c ∈ List.replicate n 'あ', c = 'あ' := fun c hc => List.eq_of_mem_replicate hc
  have h1 : strip_html_tags (List.replicate n 'あ') = List.replicate n 'あ' :=
    strip_html_tags_id _ (fun m => by have := hmem _ m; simp at this)
  have h2 : collapseLinks (List.replicate n 'あ') = List.replicate n 'あ' :=
    collapseLinks_id _ (fun m => by have := hmem _ m; simp at this)
  have h3 : (List.replicate n 'あ').filter (fun c => !isMdPunct c) = List.replicate n 'あ' :=
    List.filter_eq_self.mpr (fun a ha => by have := hmem _ ha; subst this; decide)
  have h4 : (List.replicate n 'あ').filter (fun c => !pyIsSpace c) = List.replicate n 'あ' :=
    List.filter_eq_self.mpr (fun a ha => by have := hmem _ ha; subst this; decide)
  simp only [count_japanese_chars, String.data]
  rw [h1, h2, h3, h4, List.length_replicate]

lemma tableLoop_ne_nil : ∀ (lines : List (List Char)) (i : Nat) (t s : Bool)
    (issues : List String), issues ≠ [] → tableLoop lines i t s issues ≠ []
  | [], _, _, _, _, h => h
  | l :: rest, i, t, s, issues, h => by
    simp only [tableLoop]
    split
    · split
      · split
        · exact tableLoop_ne_nil _ _ _ _ _ h
        · split
          · exact tableLoop_ne_nil _ _ _ _ _ h
          · exact tableLoop_ne_nil _ _ _ _ _ (by simp)
      · exact tableLoop_ne_nil _ _ _ _ _ h
    · split
      · exact tableLoop_ne_nil _ _ _ _ _ (by simp)
      · exact tableLoop_ne_nil _ _ _ _ _ h

lemma tableLoop_empty_iff : ∀ (lines : List (List Char)) (i : Nat) (s : Bool),
    (tableLoop lines i false s [] = [] ↔ goodRuns lines false = true) ∧
    (tableLoop lines i true true [] = [] ↔ goodRuns lines true = true)
  | [], i, s => by simp [tableLoop, goodRuns]
  | l :: rest, i, s => by
    constructor
    · simp only [tableLoop, goodRuns]
      by_cases ht : isTableLine l
      · simp only [ht, if_true, Bool.not_false, if_pos]
        cases rest with
        | nil => simp [tableLoop, goodRuns]
        | cons next rest2 =>
          by_cases hs : sepLineOk next
          · simpa [hs] using (tableLoop_empty_iff (next :: rest2) (i + 1) s).2
          · have hne := tableLoop_ne_nil (next :: rest2) (i + 1) true false
              ["line " ++ toString (i + 1) ++ ": table header not followed by separator"]
              (by simp)
            simp [hs, hne]
      · simpa [ht] using (tableLoop_empty_iff rest (i + 1) s).1
    · simp only [tableLoop, goodRuns]
      by_cases ht : isTableLine l
      · simpa [ht] using (tableLoop_empty_iff rest (i + 1) s).2
      · simpa [ht] using (tableLoop_empty_iff rest (i + 1) true).1

lemma jotaiFind_cons_empty_iff (c : Char) (rest : List Char) :
    jotaiFind (c :: rest) = [] ↔ jotaiAt (c :: rest) = false ∧ jotaiFind rest = [] := by
  rw [jotaiFind]
  split_ifs with h1 h2 h3
  · simp [jotaiAt, h1]
  · simp [jotaiAt, h2]
  · simp [jotaiAt, h3.1, h3.2]
  · have e1 : "である。".data.isPrefixOf (c :: rest) = false := by
      cases hb : "である。".data.isPrefixOf (c :: rest)
      · rfl
      · exact absurd hb h1
    have e2 : "であろう。".data.isPrefixOf (c :: rest) = false := by
      cases hb : "であろう。".data.isPrefixOf (c :: rest)
      · rfl
      · exact absurd hb h2
    have e3 : ((c != 'い') && "だ。".data.isPrefixOf rest) = false := by
      by_cases hc : c = 'い'
      · simp [hc]
      · cases hp : "だ。".data.isPrefixOf rest
        · simp
        · exact absurd ⟨hc, hp⟩ h3
    have hA : jotaiAt (c :: rest) = false := by
      simp [jotaiAt, e1, e2, e3]
    simp [hA]

lemma jotaiFind_empty_iff (l : List Char) :
    jotaiFind l = [] ↔ ∀ i, jotaiAt (l.drop i) = false := by
  induction l with
  | nil =>
    constructor
    · intro _ i
      rw [List.drop_nil]
      decide
    · intro _
      rw [jotaiFind]
  | cons c rest ih =>
    rw [jotaiFind_cons_empty_iff, ih]
    constructor
    · rintro ⟨h0, hall⟩ i
      cases i with
      | zero => exact h0
      | succ j => exact hall j
    · intro hall
      exact ⟨hall 0, fun j => hall (j + 1)⟩

lemma tally_fst_countP (cid : String) :
    ∀ docs : List (String × DocRes), (tally cid docs).1 = docs.countP (passP cid)
  | [] => by simp [tally]
  | (name, res) :: rest => by
    have ih := tally_fst_countP cid rest
    rw [List.countP_cons]
    simp only [tally]
    cases res with
    | errMark m => simp [passP, ih]
    | checks cs =>
      cases hv : repLookup cs cid with
      | none => simp [passP, hv, ih]
      | some v =>
        by_cases hp : v.pass <;> simp [passP, hv, hp, ih]

lemma tally_snd_countP (cid : String) :
    ∀ docs : List (String × DocRes), (tally cid docs).2.1 = docs.countP (failP cid)
  | [] => by simp [tally]
  | (name, res) :: rest => by
    have ih := tally_snd_countP cid rest
    rw [List.countP_cons]
    simp only [tally]
    cases res with
    | errMark m => simp [failP, ih]
    | checks cs =>
      cases hv : repLookup cs cid with
      | none => simp [failP, hv, ih]
      | some v =>
        by_cases hp : v.pass <;> simp [failP, hv, hp, ih]

lemma tally_files_length (cid : String) :
    ∀ docs : List (String × DocRes), (tally cid docs).2.2.length = (tally cid docs).2.1
  | [] => by simp [tally]
  | (name, res) :: rest => by
    have ih := tally_files_length cid rest
    simp only [tally]
    cases res with
    | errMark m => simpa using ih
    | checks cs =>
      cases hv : repLookup cs cid with
      | none => simpa [hv] using ih
      | some v =>
        by_cases hp : v.pass <;> simp [hv, hp, ih]

lemma tally_append (cid : String) :
    ∀ d1 d2 : List (String × DocRes),
      tally cid (d1 ++ d2) =
        ((tally cid d1).1 + (tally cid d2).1,
         (tally cid d1).2.1 + (tally cid d2).2.1,
         (tally cid d1).2.2 ++ (tally cid d2).2.2)
  | [], d2 => by simp [tally]
  | (name, res) :: rest, d2 => by
    have ih := tally_append cid rest d2
    cases res with
    | errMark m => simp [tally, ih]
    | checks cs =>
      cases hv : repLookup cs cid with
      | none => simp [tally, hv, ih]
      | some v =>
        by_cases hp : v.pass <;> simp [tally, hv, hp, ih, Prod.ext_iff] <;> omega

lemma zipWith_map_same {α β γ δ : Type} (f : α → β) (g : α → γ) (k : β → γ → δ) :
    ∀ l : List α, List.zipWith k (l.map f) (l.map g) = l.map (fun x => k (f x) (g x))
  | [] => rfl
  | x :: xs => by simp [zipWith_map_same f g k xs]

lemma take_append_take (n : Nat) (a b : List String) :
    (a.take n ++ b.take n).take n = (a ++ b).take n := by
  rw [List.take_append_eq_append_take, List.take_append_eq_append_take, List.take_take,
    List.take_take, Nat.min_self, List.length_take]
  congr 2
  omega

/-- C1: for every document text whose evaluation completes without raising, `run_checks`
produces a report with exactly 14 entries, one per rule identifier `check_001` through
`check_014`, in that fixed order, each entry being a verdict with a pass flag and a
detail. -/
theorem C1_run_checks_report_shape (pathExists : String → Bool)
    (yload : String → YLoadResult) (site_dir slug content : String)
    (r : List (String × Verdict))
    (h : run_checks pathExists yload site_dir slug content = .ok r) :
    r.map Prod.fst = checkIds := by
  unfold run_checks at h
  simp only [] at h
  split at h
  · exact absurd h (by simp)
  · simp only [Except.ok.injEq] at h
    subst h
    rfl

/-- Witness for C1 at a concrete document: the empty text evaluates without raising and
the report keys are the fourteen identifiers in order. -/
theorem C1_witness :
    (run_checks (fun _ => false) (fun _ => .yerror) "site" "slug" "").map
      (List.map Prod.fst) = .ok checkIds := by
  cases h : run_checks (fun _ => false) (fun _ => .yerror) "site" "slug" "" with
  | error e =>
    exfalso
    unfold run_checks at h
    have hp : parse_frontmatter (fun _ => YLoadResult.yerror) "" = ([], "") := rfl
    rw [hp] at h
    simp only [] at h
    have h13 : check_013_area_frequency [] "" = .ok (false, "no area in frontmatter") := rfl
    rw [h13] at h
    simp at h
  | ok r =>
    simp only [Except.map]
    exact congrArg Except.ok (C1_run_checks_report_shape _ _ _ _ _ r h)

/-- C2 as amended: aggregation is an order-preserving monoid homomorphism — the
aggregate of a concatenation of two document lists is the merge of the two partial
summaries, including the bounded failing-name samples — and the per-rule pass/fail
counts, failing totals and pass rates are invariant under any permutation of the
documents; only the order inside the bounded failing-name sample follows the document
order. -/
theorem C2_aggregate_amended :
    (∀ d1 d2 : List (String × DocRes),
      aggregate_results (d1 ++ d2) =
        mergeSummaries (aggregate_results d1) (aggregate_results d2)) ∧
    (∀ d1 d2 : List (String × DocRes), d1.Perm d2 →
      countsView (aggregate_results d1) = countsView (aggregate_results d2)) := by
  constructor
  · intro d1 d2
    simp only [aggregate_results, mergeSummaries]
    rw [zipWith_map_same]
    apply List.map_congr_left
    intro cid _
    simp only [ruleSummary, mergeRuleSummary, tally_append]
    refine congrArg (Prod.mk cid) ?_
    simp only [RuleSummary.mk.injEq, true_and]
    exact ⟨(take_append_take 20 _ _).symm, List.length_append _ _⟩
  · intro d1 d2 hperm
    simp only [countsView, aggregate_results, List.map_map]
    apply List.map_congr_left
    intro cid _
    have hp : (tally cid d1).1 = (tally cid d2).1 := by
      rw [tally_fst_countP, tally_fst_countP]
      exact hperm.countP_eq _
    have hf : (tally cid d1).2.1 = (tally cid d2).2.1 := by
      rw [tally_snd_countP, tally_snd_countP]
      exact hperm.countP_eq _
    have ht : (tally cid d1).2.2.length = (tally cid d2).2.2.length := by
      rw [tally_files_length, tally_files_length, hf]
    simp [Function.comp, ruleSummary, hp, hf, ht]

/-- C2 counterexample: two documents that both fail rule 001, aggregated in the two
possible orders, give different summaries — the failing-name samples `[a.md, b.md]`
and `[b.md, a.md]` differ — so aggregation is not a commutative reduction on whole
summaries as the claim states. -/
theorem C2_counterexample :
    aggregate_results [("a.md", repFail), ("b.md", repFail)] ≠
      aggregate_results [("b.md", repFail), ("a.md", repFail)] := by
  decide

/-- Witness for C2 at concrete collections: the split aggregate merges to the full
one, and the counts view is invariant under swapping the two documents. -/
theorem C2_witness :
    aggregate_results ([("a.md", repFail)] ++ [("b.md", repFail)]) =
      mergeSummaries (aggregate_results [("a.md", repFail)])
        (aggregate_results [("b.md", repFail)]) ∧
    countsView (aggregate_results [("a.md", repFail), ("b.md", repFail)]) =
      countsView (aggregate_results [("b.md", repFail), ("a.md", repFail)]) :=
  ⟨C2_aggregate_amended.1 _ _, C2_aggregate_amended.2 _ _ (by decide)⟩

/-- C3 as amended: when the header block is present but malformed (the YAML loader
errors on it), extraction degrades to an empty metadata mapping without raising; on
the resulting document rule 001 fails listing all seven required fields as missing,
while rule 002 passes vacuously because it only validates fields that are present. -/
theorem C3_malformed_header_amended (yload : String → YLoadResult) (content : String)
    (e : Nat)
    (h1 : "---".data.isPrefixOf content.data = true)
    (h2 : findSub "---".data (content.data.drop 3) 3 = some e)
    (h3 : yload (String.mk (pyStrip ((content.data.drop 3).take (e - 3)))) = .yerror) :
    (parse_frontmatter yload content).1 = [] ∧
    check_001_frontmatter_fields [] =
      (false,
       "missing: title, description, publishedAt, category, area, keyword, keywords") ∧
    check_002_frontmatter_types [] = (true, "") := by
  refine ⟨?_, by decide, by decide⟩
  simp [parse_frontmatter, h1, h2, h3]

/-- C3 counterexample: on a document with a malformed header the metadata degrades to
empty, and rule 002 then returns a pass, not the failure with invalid field values
that the claim asserts. -/
theorem C3_counterexample :
    (parse_frontmatter (fun _ => .yerror) "---\n\x7b\n---\nbody").1 = [] ∧
    (check_002_frontmatter_types
      (parse_frontmatter (fun _ => .yerror) "---\n\x7b\n---\nbody").1).1 = true :=
  ⟨by decide, by decide⟩

/-- Witness for C3 at a concrete document whose header is an unclosed flow mapping. -/
theorem C3_witness :
    (parse_frontmatter (fun _ => .yerror) "---\n\x7b\n---\nbody").1 = [] ∧
    check_001_frontmatter_fields [] =
      (false,
       "missing: title, description, publishedAt, category, area, keyword, keywords") ∧
    check_002_frontmatter_types [] = (true, "") :=
  C3_malformed_header_amended (fun _ => .yerror) "---\n\x7b\n---\nbody" 6
    (by decide) (by decide) (by decide)

/-- C4 as amended: rule 007 passes exactly when the chosen content is non-empty and
contains at least 5 level-3 or level-4 headings, where the chosen content is the first
FAQ-headed section's content when non-empty, and otherwise (no matching heading, or a
matching heading with empty content) the 4th level-2 section's content when at least 4
sections exist. -/
theorem C4_faq_amended (body : String) :
    (check_007_faq_questions body).1 = true ↔
      faqChosenContent body ≠ [] ∧ 5 ≤ countQuestions (faqChosenContent body) := by
  simp only [check_007_faq_questions, faqChosenContent]
  split <;> (try split) <;> (try split) <;> simp_all

/-- C4 counterexample: a body whose FAQ-headed section is empty while its 4th section
holds 5 question headings; the rule as implemented falls back to the 4th section and
passes, while the claim as stated evaluates the FAQ section and demands failure. -/
theorem C4_counterexample :
    (check_007_faq_questions
      "## FAQ\n## A\nx\n## B\nx\n## C\n### q1\n### q2\n### q3\n### q4\n### q5").1 = true ∧
    claimFaqPass
      "## FAQ\n## A\nx\n## B\nx\n## C\n### q1\n### q2\n### q3\n### q4\n### q5" = false :=
  ⟨by decide, by decide⟩

/-- C5 as amended: extraction recognises a header block exactly when the text begins
with the three characters `---` and that substring occurs again at some index e of at
least 3; the stripped text strictly between index 3 and e is handed to the key/value
parser (failures and non-mappings degrading to empty), and the body is the stripped
text after index e + 3; otherwise the metadata is empty and the body is the whole
text. -/
theorem C5_parse_frontmatter_amended (yload : String → YLoadResult) (content : String) :
    (("---".data.isPrefixOf content.data = false ∨
        findSub "---".data (content.data.drop 3) 3 = none) →
      parse_frontmatter yload content = ([], content)) ∧
    (∀ e, "---".data.isPrefixOf content.data = true →
      findSub "---".data (content.data.drop 3) 3 = some e →
      parse_frontmatter yload content =
        (match yload (String.mk (pyStrip ((content.data.drop 3).take (e - 3)))) with
          | .ydict d => d
          | _ => [],
         String.mk (pyStrip (content.data.drop (e + 3))))) := by
  constructor
  · rintro (h | h) <;> simp [parse_frontmatter, h]
  · intro e h1 h2
    simp [parse_frontmatter, h1, h2]

/-- C5 counterexample: on a text that contains no delimiter line at all, extraction as
implemented still recognises a header because it only looks for the three delimiter
characters as substrings, and the resulting body is not the full text as the claim
demands. -/
theorem C5_counterexample :
    parse_frontmatter (fun _ => .yerror) "---abc---def" = ([], "def") ∧
    claimExtract (fun _ => .yerror) "---abc---def" = ([], "---abc---def") :=
  ⟨by decide, by decide⟩

/-- Witness for C5 at concrete inputs: a text with no delimiter keeps its full body and
empty metadata, and a text with both delimiter occurrences gets the stripped tail as
body. -/
theorem C5_witness :
    parse_frontmatter (fun _ => .yerror) "hello" = ([], "hello") ∧
    parse_frontmatter (fun _ => .yerror) "---a---b" = ([], "b") :=
  ⟨(C5_parse_frontmatter_amended (fun _ => .yerror) "hello").1 (Or.inl (by decide)),
   by
    have h := (C5_parse_frontmatter_amended (fun _ => .yerror) "---a---b").2 4
      (by decide) (by decide)
    simpa using h⟩

/-- C6 as amended: rule 011 passes exactly when every contiguous run of table lines
either starts at the very last line of the body (where no following line exists and no
check is made) or has, right after its first line, a table line containing at least 2
consecutive dashes. A failing run yields a detail entry referencing that line, plus a
second entry when the run ends before the end of the body, and the detail shows at
most the first 3 entries. -/
theorem C6_table_syntax_amended :
    (∀ body : String, (check_011_markdown_table body).1 = true ↔
      goodRuns (splitNl body.data) false = true) ∧
    (check_011_markdown_table "| a | b |\n|---|---|\n| c | d |").1 = true ∧
    check_011_markdown_table "| a | b |\nxxx" =
      (false,
       "line 1: table header not followed by separator; table ending at line 1: no separator row found") := by
  refine ⟨fun body => ?_, by decide, by decide⟩
  have h := (tableLoop_empty_iff (splitNl body.data) 0 false).1
  simp only [check_011_markdown_table]
  constructor
  · intro hp
    by_cases hL : tableLoop (splitNl body.data) 0 false false [] = []
    · exact h.mp hL
    · rw [if_pos hL] at hp
      exact absurd hp (by simp)
  · intro hG
    rw [if_neg (by simp [h.mpr hG])]

/-- C6 counterexample: a body consisting of one single table line passes rule 011 as
implemented, while the claim as stated requires the line after the run's first line to
be a separator line and so demands failure. -/
theorem C6_counterexample :
    (check_011_markdown_table "| a |").1 = true ∧
    claimGoodRuns (splitNl ("| a |" : String).data) false = false :=
  ⟨by decide, by decide⟩

/-- C7 as amended: rule 012 passes exactly when the tag-stripped body has, at no
position, an occurrence of one of the two full literary endings or of the bare ending
preceded by a character different from the exempting one — an occurrence of the bare
ending at the very start of the text, with no preceding character, is not flagged. -/
theorem C7_writing_style_amended (body : String) :
    (check_012_writing_style body).1 = true ↔
      ∀ i, jotaiAt ((strip_html_tags body.data).drop i) = false := by
  simp only [check_012_writing_style]
  rw [← jotaiFind_empty_iff]
  split <;> simp_all

/-- C7 counterexample: a body that consists of the bare literary ending alone passes
rule 012 as implemented, because the pattern requires a preceding character, while the
claim as stated flags this occurrence (it is not preceded by the exempting character)
and demands failure. -/
theorem C7_counterexample :
    (check_012_writing_style "だ。").1 = true ∧
    claimJotaiOcc (strip_html_tags ("だ。" : String).data) = true := by
  constructor
  · have hc : strip_html_tags ("だ。" : String).data = "だ。".data := by decide
    simp only [check_012_writing_style, hc]
    have hj : jotaiFind "だ。".data = [] := by
      rw [jotaiFind]
      norm_num [List.isPrefixOf]
      rw [jotaiFind]
      norm_num [List.isPrefixOf]
      rw [jotaiFind]
    simp [hj]
  · decide

/-- C8 as amended: rule 004 passes exactly when the count of container opening tags
plus the count of comment markers, where a marker is the comment opener followed by any
run of whitespace (possibly empty) and then the CTA tag, equals 3; totals of 2 or 4
fail in any container/comment combination. -/
theorem C8_cta_count_amended :
    (∀ body : String, (check_004_cta_count body).1 = true ↔
      countSub CTA_DIV.data body.data + countCtaComments body.data = 3) ∧
    (check_004_cta_count "<div class=\"cta-box\"><!-- CTA: a -->").1 = false ∧
    (check_004_cta_count
      "<!-- CTA: a --><!-- CTA: b --><div class=\"cta-box\"><div class=\"cta-box\">").1 =
      false := by
  refine ⟨fun body => ?_, ?_, ?_⟩
  · simp only [check_004_cta_count]
    split <;> simp_all
  · simp [check_004_cta_count, CTA_DIV, countSub, countCtaComments, ctaMatchLen, pyIsSpace]
  · simp [check_004_cta_count, CTA_DIV, countSub, countCtaComments, ctaMatchLen, pyIsSpace]

/-- C8 counterexample: a body holding three comment markers written without the space,
which the source regex accepts, passes rule 004 although it has no occurrence of the
literal `<!-- CTA:` and none of the container tag, so the claim as stated calls the
total 0 and demands failure. -/
theorem C8_counterexample :
    (check_004_cta_count "<!--CTA:<!--CTA:<!--CTA:").1 = true ∧
    countSub CTA_DIV.data "<!--CTA:<!--CTA:<!--CTA:".data +
      countSub "<!-- CTA:".data "<!--CTA:<!--CTA:<!--CTA:".data = 0 := by
  constructor
  · simp [check_004_cta_count, CTA_DIV, countSub, countCtaComments, ctaMatchLen, pyIsSpace]
  · simp [CTA_DIV, countSub]

/-- C9: rule 008 passes exactly when the normalized character count is at least 2500;
a body of exactly 2500 normalized characters passes and one of 2499 fails. -/
theorem C9_char_count_boundary :
    (∀ body : String,
      (check_008_char_count body).1 = true ↔ 2500 ≤ count_japanese_chars body) ∧
    (check_008_char_count (String.mk (List.replicate 2500 'あ'))).1 = true ∧
    (check_008_char_count (String.mk (List.replicate 2499 'あ'))).1 = false := by
  refine ⟨fun body => ?_, ?_, ?_⟩
  · simp only [check_008_char_count]
    split <;> simp_all
  · simp only [check_008_char_count, count_japanese_chars_replicate 2500]
    norm_num
  · simp only [check_008_char_count, count_japanese_chars_replicate 2499]
    norm_num

/-- C10: for every body whose first 50 lines contain the two-character substring `PR`
anywhere, rule 003 passes. -/
theorem C10_pr_substring_passes (body : String)
    (h : ∃ s t, joinNl ((splitNl body.data).take 50) = s ++ "PR".data ++ t) :
    (check_003_pr_notice body).1 = true := by
  have hc : containsB "PR".data (joinNl ((splitNl body.data).take 50)) = true :=
    (containsB_iff_exists _ _).mpr h
  simp [check_003_pr_notice, hc]

/-- Witness for C10: a body consisting of a single word containing `PR` (no standalone
disclosure notice) passes rule 003. -/
theorem C10_witness :
    (∃ s t, joinNl ((splitNl ("xxPRyy" : String).data).take 50) = s ++ "PR".data ++ t) ∧
    (check_003_pr_notice "xxPRyy").1 = true :=
  ⟨⟨"xx".data, "yy".data, by decide⟩,
   C10_pr_substring_passes "xxPRyy" ⟨"xx".data, "yy".data, by decide⟩⟩

end SeoQc

-- Behavioural cross-checks of the embedding on concrete inputs.
example : SeoQc.pyStrip "  a b \n".data = "a b".data := by decide
example : SeoQc.splitNl "a\nb".data = ["a".data, "b".data] := by decide
example : SeoQc.containsB "PR".data "xxPRy".data = true := by decide
example : SeoQc.findSub "---".data ("---abc---def".data.drop 3) 3 = some 6 := by decide
example : SeoQc.countSub "aa".data "aaaa".data = 2 := by simp [SeoQc.countSub]
example : SeoQc.strip_html_tags "a<b>c<d".data = "ac<d".data := by decide
example : SeoQc.strip_html_tags "x<>y<z>".data = "x<>y".data := by decide
example : SeoQc.collapseLinks "a[t](u)b".data = "atb".data := by
  simp [SeoQc.collapseLinks, SeoQc.findCharIdx]
example : SeoQc.count_japanese_chars "# あい* [う](x) え" = 4 := by
  have h1 : SeoQc.strip_html_tags "# あい* [う](x) え".data = "# あい* [う](x) え".data := by
    decide
  have h2 : SeoQc.collapseLinks "# あい* [う](x) え".data = "# あい* う え".data := by
    simp [SeoQc.collapseLinks, SeoQc.findCharIdx]
  simp only [SeoQc.count_japanese_chars, h1, h2]
  decide
example : SeoQc.find_h2_sections "pre\n## A\nx\ny\n## B\nz" =
    [("## A".data, "x\ny".data), ("## B".data, "z".data)] := by decide
